import Mathlib

/-!
Shallow embedding of the reputation-scoring core of `protol`'s in-memory
local store (`src/protol/_local_store.py`, class `LocalStore`), together
with theorems settling the spec claims about it.

Python floats are modelled as real numbers; Python dicts keyed by agent id
are modelled as association lists in insertion order; raising a not-found
exception is modelled by returning an error value alongside the untouched
store.  Descriptive profile fields that never feed the scoring pipeline
(architecture, tags, timestamps, ids) are elided; every field the claims
touch is carried.
-/

noncomputable section

open scoped Classical

namespace Protol

/-- An action record, restricted to the fields the scoring engine reads
(`status`, `cost_usd`, `self_reported_confidence`, `input_hash`,
`output_hash` — the last two matter only through presence/absence). -/
structure Action where
  status : String
  cost_usd : Option ℝ
  self_reported_confidence : Option ℝ
  input_hash : Option String
  output_hash : Option String

/-- An incident record, restricted to the field the scoring engine reads. -/
structure Incident where
  severity : String

/-- The reputation snapshot stored on a profile (`reputation` dict):
overall score, trust tier, the five-dimension breakdown, and trend.
The `last_computed` timestamp is elided. -/
structure Reputation where
  overall_score : ℝ
  trust_tier : String
  reliability : ℝ
  safety : ℝ
  consistency : ℝ
  efficiency : ℝ
  transparency : ℝ
  trend : String

/-- Aggregate stats kept on a profile (`stats` dict), restricted to the
fields derivable from the embedded action/incident fields. -/
structure Stats where
  total_actions : ℕ
  success_rate : ℝ
  incidents : ℕ

/-- An agent profile, restricted to the fields the claims touch. -/
structure Profile where
  name : String
  category : String
  reputation : Reputation
  stats : Stats

/-- The `LocalStore` state: agents, per-agent actions, per-agent incidents.
Python dicts are modelled as insertion-ordered association lists. -/
structure Store where
  agents : List (String × Profile)
  actions : List (String × List Action)
  incidents : List (String × List Incident)

/-- First-match association-list lookup (Python dict keys are unique, so
first match and last match coincide). -/
def lookupAssoc {α : Type} : List (String × α) → String → Option α
  | [], _ => none
  | (k, v) :: rest, aid => if k = aid then some v else lookupAssoc rest aid

/-- `self._agents.get(agent_id)` (presence test / read). -/
def lookupAgent (s : Store) (aid : String) : Option Profile :=
  lookupAssoc s.agents aid

/-- `self._actions.get(agent_id, [])`. -/
def actionsOf (s : Store) (aid : String) : List Action :=
  (lookupAssoc s.actions aid).getD []

/-- `self._incidents.get(agent_id, [])`. -/
def incidentsOf (s : Store) (aid : String) : List Incident :=
  (lookupAssoc s.incidents aid).getD []

/-- `statistics.mean` over a list of reals. -/
def mean (l : List ℝ) : ℝ := l.sum / l.length

/-- Sample variance with `n - 1` denominator, as used by
`statistics.stdev`. -/
def sampleVariance (l : List ℝ) : ℝ :=
  ((l.map (fun x => (x - mean l) ^ 2)).sum) / ((l.length : ℝ) - 1)

/-- `statistics.stdev`: square root of the sample variance. -/
def stdev (l : List ℝ) : ℝ := Real.sqrt (sampleVariance l)

/-- `a["status"] in ("success", "partial")`. -/
def isSuccessStatus (st : String) : Bool :=
  st = "success" || st = "partial"

/-- `severity_weights.get(inc.get("severity", "low"), 1)` with
`severity_weights = {"low": 1, "medium": 3, "high": 7, "critical": 15}`. -/
def severityWeight (sev : String) : ℝ :=
  if sev = "low" then 1
  else if sev = "medium" then 3
  else if sev = "high" then 7
  else if sev = "critical" then 15
  else 1

/-- `LocalStore._compute_reliability`. -/
def compute_reliability (actions : List Action) : ℝ :=
  let total := actions.length
  if total = 0 then 50
  else
    let successes := (actions.filter (fun a => isSuccessStatus a.status)).length
    let raw_rate := ((successes : ℝ) / (total : ℝ)) * 100
    let confidence := min 1 (Real.sqrt (total : ℝ) / 10)
    50 * (1 - confidence) + raw_rate * confidence

/-- `LocalStore._compute_safety`. -/
def compute_safety (actions : List Action) (incidents : List Incident) : ℝ :=
  let total_actions := max actions.length 1
  let weighted_score := (incidents.map (fun inc => severityWeight inc.severity)).sum
  let raw := 100 - (weighted_score / (total_actions : ℝ)) * 10
  max 0 (min 100 raw)

/-- The self-reported confidence values present among `actions`
(the list comprehension at the head of `_compute_consistency`). -/
def confidencesOf (actions : List Action) : List ℝ :=
  actions.filterMap (fun a => a.self_reported_confidence)

/-- `LocalStore._compute_consistency`. -/
def compute_consistency (actions : List Action) : ℝ :=
  let confidences := confidencesOf actions
  if confidences.length < 2 then 50
  else
    let sd := stdev confidences
    let raw := max 0 (100 - sd * 200)
    max 0 (min 100 raw)

/-- Costs of the successful/partial actions that carry a recorded cost
(the comprehension used for both the scored agent and each scanned agent
in `_compute_efficiency`). -/
def costsOf (actions : List Action) : List ℝ :=
  (actions.filter (fun a => isSuccessStatus a.status)).filterMap
    (fun a => a.cost_usd)

/-- `LocalStore._compute_efficiency`.  The scan over
`self._agents.items()` visits every agent whose category matches the
scored agent's category — including the scored agent itself, which is not
skipped by the source. -/
def compute_efficiency (s : Store) (aid : String) (actions : List Action) : ℝ :=
  let category := ((lookupAgent s aid).map Profile.category).getD ""
  let agent_costs := costsOf actions
  if agent_costs = [] then 50
  else
    let agent_avg := mean agent_costs
    let category_costs :=
      (s.agents.filter (fun p => p.2.category = category)).filterMap
        (fun p =>
          let costs := costsOf (actionsOf s p.1)
          if costs = [] then none else some (mean costs))
    if category_costs = [] ∨ mean category_costs = 0 then 50
    else
      let category_avg := mean category_costs
      let raw := 50 + 50 * (1 - agent_avg / category_avg)
      max 0 (min 100 raw)

/-- Number of the three provenance signals present on one action
(`output_hash`, `input_hash`, `self_reported_confidence`). -/
def transparencySignals (a : Action) : ℕ :=
  (if a.output_hash.isSome then 1 else 0)
    + (if a.input_hash.isSome then 1 else 0)
    + (if a.self_reported_confidence.isSome then 1 else 0)

/-- `LocalStore._compute_transparency`. -/
def compute_transparency (actions : List Action) : ℝ :=
  let total := actions.length
  if total = 0 then 50
  else
    let transparent_count := (actions.map transparencySignals).sum
    ((transparent_count : ℝ) / ((total * 3 : ℕ) : ℝ)) * 100

/-- `LocalStore._score_to_tier`. -/
def score_to_tier (score : ℝ) : String :=
  if score ≥ 90 then "Platinum"
  else if score ≥ 75 then "Gold"
  else if score ≥ 60 then "Silver"
  else if score ≥ 40 then "Bronze"
  else "Unverified"

/-- `LocalStore._default_reputation` (timestamp elided). -/
def default_reputation : Reputation :=
  { overall_score := 50
    trust_tier := "Unverified"
    reliability := 50
    safety := 100
    consistency := 50
    efficiency := 50
    transparency := 50
    trend := "stable" }

/-- Python `round(x, 2)`, idealized as rounding `x * 100` to the nearest
integer and dividing back. -/
def round2 (x : ℝ) : ℝ := ((round (x * 100) : ℤ) : ℝ) / 100

/-- The weighted aggregation in `_recompute_reputation`:
reliability 30%, safety 25%, consistency 20%, efficiency 15%,
transparency 10%. -/
def weightedOverall (reliability safety consistency efficiency transparency : ℝ) : ℝ :=
  reliability * 0.30 + safety * 0.25 + consistency * 0.20
    + efficiency * 0.15 + transparency * 0.10

/-- The clamped overall score computed by `_recompute_reputation` for an
agent, before rounding (`overall = max(0.0, min(100.0, overall))`). -/
def overall_score_of (s : Store) (aid : String) : ℝ :=
  let actions := actionsOf s aid
  max 0 (min 100
    (weightedOverall (compute_reliability actions)
      (compute_safety actions (incidentsOf s aid))
      (compute_consistency actions)
      (compute_efficiency s aid actions)
      (compute_transparency actions)))

/-- The trend comparison in `_recompute_reputation`: the new (clamped,
unrounded) overall against the previously stored overall score. -/
def trendOf (overall prev_score : ℝ) : String :=
  if overall > prev_score + 2 then "improving"
  else if overall < prev_score - 2 then "declining"
  else "stable"

/-- The reputation snapshot written by `LocalStore._recompute_reputation`
for agent `aid` whose current profile is `profile`: the default snapshot
when the agent has no actions, otherwise the five scores and the clamped
overall, each rounded to two decimals, with the tier and trend computed
from the unrounded (clamped) overall. -/
def recompute_reputation (s : Store) (aid : String) (profile : Profile) : Reputation :=
  let actions := actionsOf s aid
  if actions = [] then default_reputation
  else
    let overall := overall_score_of s aid
    { overall_score := round2 overall
      trust_tier := score_to_tier overall
      reliability := round2 (compute_reliability actions)
      safety := round2 (compute_safety actions (incidentsOf s aid))
      consistency := round2 (compute_consistency actions)
      efficiency := round2 (compute_efficiency s aid actions)
      transparency := round2 (compute_transparency actions)
      trend := trendOf overall profile.reputation.overall_score }

/-- `LocalStore._update_stats`, restricted to the embedded stats fields
(`avg_rating`, `total_earnings_usd` and `last_active` depend on fields
outside the scoring model and are elided). -/
def update_stats (s : Store) (aid : String) : Stats :=
  let actions := actionsOf s aid
  let incidents := incidentsOf s aid
  let total := actions.length
  let successes := (actions.filter (fun a => isSuccessStatus a.status)).length
  { total_actions := total
    success_rate := if 0 < total then ((successes : ℝ) / (total : ℝ)) * 100 else 0
    incidents := incidents.length }

/-- Replace the profile stored under `aid` (in-place dict update of
`self._agents[agent_id]`). -/
def setAgent (s : Store) (aid : String) (p : Profile) : Store :=
  { s with agents := s.agents.map (fun q => if q.1 = aid then (q.1, p) else q) }

/-- `defaultdict(list)` append: `self._xs[agent_id].append(x)`. -/
def appendAssoc {α : Type} (l : List (String × List α)) (aid : String) (x : α) :
    List (String × List α) :=
  if l.any (fun p => p.1 = aid) then
    l.map (fun p => if p.1 = aid then (p.1, p.2 ++ [x]) else p)
  else l ++ [(aid, [x])]

/-- `LocalStore._recompute_reputation` as a store transformer: write the
new snapshot and refresh the stats of agent `aid`.  The source indexes
`self._agents[agent_id]` directly and is only invoked on existing agents;
the missing-agent branch (unreachable in the source) leaves the store
unchanged. -/
def recompute_store (s : Store) (aid : String) : Store :=
  match lookupAgent s aid with
  | none => s
  | some profile =>
      setAgent s aid
        { profile with
            reputation := recompute_reputation s aid profile
            stats := update_stats s aid }

/-- The not-found condition raised by `LocalStore._get_agent`. -/
inductive StoreError where
  | notFound

/-- The fields of a PATCH `/agents/{id}` payload carried by the embedding
(the remaining descriptive/architecture keys updated by `_update_agent`
never feed scoring and are elided). -/
structure UpdateData where
  name : Option String
  category : Option String

/-- Query parameters of GET `/agents/{id}/actions`
(the `task_category` filter reads a field outside the scoring model and
is elided). -/
structure ActionQuery where
  status : Option String
  limit : ℕ
  offset : ℕ

/-- One entry of the synthesized reputation history
(timestamp elided). -/
structure HistoryEntry where
  overall_score : ℝ
  trust_tier : String
  actions_in_window : ℕ

/-- `LocalStore._get_agent`: a raised `NotFoundError` is modelled as an
error value returned alongside the untouched store. -/
def get_agent (s : Store) (aid : String) :
    Except StoreError Profile × Store :=
  match lookupAgent s aid with
  | none => (Except.error StoreError.notFound, s)
  | some p => (Except.ok p, s)

/-- `LocalStore._update_agent` (embedded fields only): existence check
first, then field-wise patch of the present keys. -/
def update_agent (s : Store) (aid : String) (data : UpdateData) :
    Except StoreError Profile × Store :=
  match lookupAgent s aid with
  | none => (Except.error StoreError.notFound, s)
  | some p =>
      let p2 := { p with
        name := data.name.getD p.name
        category := data.category.getD p.category }
      (Except.ok p2, setAgent s aid p2)

/-- `LocalStore._record_action`: existence check first, then append the
action and recompute reputation and stats. -/
def record_action (s : Store) (aid : String) (act : Action) :
    Except StoreError Action × Store :=
  match lookupAgent s aid with
  | none => (Except.error StoreError.notFound, s)
  | some _ =>
      let s1 := { s with actions := appendAssoc s.actions aid act }
      (Except.ok act, recompute_store s1 aid)

/-- `LocalStore._get_actions`: existence check, then filter by status and
paginate. -/
def get_actions (s : Store) (aid : String) (q : ActionQuery) :
    Except StoreError (List Action) × Store :=
  match lookupAgent s aid with
  | none => (Except.error StoreError.notFound, s)
  | some _ =>
      let acts := actionsOf s aid
      let acts := match q.status with
        | none => acts
        | some st => acts.filter (fun a => a.status = st)
      (Except.ok ((acts.drop q.offset).take q.limit), s)

/-- `LocalStore._get_reputation_history`: a one-element history
synthesized from the current snapshot. -/
def get_reputation_history (s : Store) (aid : String) :
    Except StoreError (List HistoryEntry) × Store :=
  match lookupAgent s aid with
  | none => (Except.error StoreError.notFound, s)
  | some p =>
      (Except.ok
        [{ overall_score := p.reputation.overall_score
           trust_tier := p.reputation.trust_tier
           actions_in_window := p.stats.total_actions }], s)

/-- `LocalStore._get_agent_incidents`. -/
def get_agent_incidents (s : Store) (aid : String) :
    Except StoreError (List Incident) × Store :=
  match lookupAgent s aid with
  | none => (Except.error StoreError.notFound, s)
  | some _ => (Except.ok (incidentsOf s aid), s)

/-- `LocalStore._report_incident`: existence check first, then append the
incident, bump the stats incident count, and recompute. -/
def report_incident (s : Store) (aid : String) (inc : Incident) :
    Except StoreError Incident × Store :=
  match lookupAgent s aid with
  | none => (Except.error StoreError.notFound, s)
  | some p =>
      let s1 := { s with incidents := appendAssoc s.incidents aid inc }
      let s2 := setAgent s1 aid
        { p with stats := { p.stats with incidents := (incidentsOf s1 aid).length } }
      (Except.ok inc, recompute_store s2 aid)

/-- The efficiency scorer as claim C2 words it: the cost baseline is the
mean of per-peer mean costs over every OTHER agent of the scored agent's
category (the scored agent excluded), a peer contributing only if it has
at least one successful/partial action with a recorded cost. -/
def efficiency_peers_excluding_self (s : Store) (aid : String)
    (actions : List Action) : ℝ :=
  let category := ((lookupAgent s aid).map Profile.category).getD ""
  let agent_costs := costsOf actions
  if agent_costs = [] then 50
  else
    let peers := (s.agents.filter
      (fun p => p.1 ≠ aid ∧ p.2.category = category)).filter
        (fun p => costsOf (actionsOf s p.1) ≠ [])
    let peer_means := peers.map (fun p => mean (costsOf (actionsOf s p.1)))
    if peer_means = [] ∨ mean peer_means = 0 then 50
    else
      max 0 (min 100
        (50 + 50 * (1 - mean agent_costs / mean peer_means)))

/-- The efficiency scorer with the peer set amended to include every
agent of the category — the scored agent itself among them — matching the
scan the source actually performs; otherwise phrased as claim C2. -/
def efficiency_peers_including_self (s : Store) (aid : String)
    (actions : List Action) : ℝ :=
  let category := ((lookupAgent s aid).map Profile.category).getD ""
  let agent_costs := costsOf actions
  if agent_costs = [] then 50
  else
    let peers := (s.agents.filter (fun p => p.2.category = category)).filter
      (fun p => costsOf (actionsOf s p.1) ≠ [])
    let peer_means := peers.map (fun p => mean (costsOf (actionsOf s p.1)))
    if peer_means = [] ∨ mean peer_means = 0 then 50
    else
      max 0 (min 100
        (50 + 50 * (1 - mean agent_costs / mean peer_means)))

/-! ### Unfolding equations for the scorers -/

theorem compute_reliability_def (actions : List Action) :
    compute_reliability actions =
      if actions.length = 0 then 50
      else
        50 * (1 - min 1 (Real.sqrt (actions.length : ℝ) / 10))
          + ((((actions.filter (fun a => isSuccessStatus a.status)).length : ℝ)
              / (actions.length : ℝ)) * 100)
            * min 1 (Real.sqrt (actions.length : ℝ) / 10) := rfl

theorem compute_safety_def (actions : List Action) (incidents : List Incident) :
    compute_safety actions incidents =
      max 0 (min 100
        (100 - ((incidents.map (fun inc => severityWeight inc.severity)).sum
          / ((max actions.length 1 : ℕ) : ℝ)) * 10)) := rfl

theorem compute_consistency_def (actions : List Action) :
    compute_consistency actions =
      if (confidencesOf actions).length < 2 then 50
      else max 0 (min 100 (max 0 (100 - stdev (confidencesOf actions) * 200))) := rfl

theorem compute_transparency_def (actions : List Action) :
    compute_transparency actions =
      if actions.length = 0 then 50
      else (((actions.map transparencySignals).sum : ℝ)
          / ((actions.length * 3 : ℕ) : ℝ)) * 100 := rfl

/-! ### Bounds helpers -/

theorem clamp_nonneg (raw : ℝ) : 0 ≤ max 0 (min 100 raw) := le_max_left _ _

theorem clamp_le_100 (raw : ℝ) : max 0 (min 100 raw) ≤ 100 :=
  max_le (by norm_num) (min_le_left _ _)

theorem round_le_round {x y : ℝ} (h : x ≤ y) : round x ≤ round y := by
  rw [round_eq, round_eq]
  exact Int.floor_le_floor (by linarith)

theorem round2_bounds {x : ℝ} (h0 : 0 ≤ x) (h1 : x ≤ 100) :
    0 ≤ round2 x ∧ round2 x ≤ 100 := by
  unfold round2
  have l1 : (0 : ℤ) ≤ round (x * 100) := by
    have := round_le_round (show (0:ℝ) ≤ x * 100 by linarith)
    simpa using this
  have l2 : round (x * 100) ≤ 10000 := by
    have := round_le_round (show x * 100 ≤ 10000 by linarith)
    simpa using this
  constructor
  · exact div_nonneg (by exact_mod_cast l1) (by norm_num)
  · rw [div_le_iff₀ (by norm_num)]
    calc ((round (x * 100) : ℤ) : ℝ) ≤ ((10000 : ℤ) : ℝ) := by exact_mod_cast l2
    _ = 100 * 100 := by norm_num

theorem compute_reliability_bounds (actions : List Action) :
    0 ≤ compute_reliability actions ∧ compute_reliability actions ≤ 100 := by
  rw [compute_reliability_def]
  split_ifs with h
  · norm_num
  · have hpos : 0 < actions.length := Nat.pos_of_ne_zero h
    have hle : (actions.filter (fun a => isSuccessStatus a.status)).length
        ≤ actions.length := List.length_filter_le _ _
    set c := min 1 (Real.sqrt (actions.length : ℝ) / 10) with hc
    have hc0 : 0 ≤ c :=
      le_min (by norm_num) (div_nonneg (Real.sqrt_nonneg _) (by norm_num))
    have hc1 : c ≤ 1 := min_le_left _ _
    set r := (((actions.filter (fun a => isSuccessStatus a.status)).length : ℝ)
      / (actions.length : ℝ)) * 100 with hr
    have hr0 : 0 ≤ r := by positivity
    have hr100 : r ≤ 100 := by
      rw [hr]
      have hq : ((actions.filter (fun a => isSuccessStatus a.status)).length : ℝ)
          / (actions.length : ℝ) ≤ 1 := by
        rw [div_le_one (by exact_mod_cast hpos)]
        exact_mod_cast hle
      nlinarith
    constructor
    · nlinarith
    · nlinarith

theorem compute_safety_bounds (actions : List Action) (incidents : List Incident) :
    0 ≤ compute_safety actions incidents ∧ compute_safety actions incidents ≤ 100 := by
  rw [compute_safety_def]
  exact ⟨clamp_nonneg _, clamp_le_100 _⟩

theorem compute_consistency_bounds (actions : List Action) :
    0 ≤ compute_consistency actions ∧ compute_consistency actions ≤ 100 := by
  rw [compute_consistency_def]
  split_ifs with h
  · norm_num
  · exact ⟨clamp_nonneg _, clamp_le_100 _⟩

theorem compute_efficiency_bounds (s : Store) (aid : String) (actions : List Action) :
    0 ≤ compute_efficiency s aid actions ∧ compute_efficiency s aid actions ≤ 100 := by
  unfold compute_efficiency
  dsimp only
  split_ifs with h1 h2
  · norm_num
  · norm_num
  · exact ⟨clamp_nonneg _, clamp_le_100 _⟩

theorem transparencySignals_le_three (a : Action) : transparencySignals a ≤ 3 := by
  unfold transparencySignals
  split_ifs <;> norm_num

theorem sum_transparencySignals_le (actions : List Action) :
    (actions.map transparencySignals).sum ≤ actions.length * 3 := by
  induction actions with
  | nil => simp
  | cons hd tl ih =>
      have := transparencySignals_le_three hd
      simp only [List.map_cons, List.sum_cons, List.length_cons]
      omega

theorem compute_transparency_bounds (actions : List Action) :
    0 ≤ compute_transparency actions ∧ compute_transparency actions ≤ 100 := by
  rw [compute_transparency_def]
  split_ifs with h
  · norm_num
  · have hpos : 0 < actions.length := Nat.pos_of_ne_zero h
    have hden : (0 : ℝ) < ((actions.length * 3 : ℕ) : ℝ) := by
      exact_mod_cast Nat.mul_pos hpos (by norm_num)
    constructor
    · positivity
    · have hq : (((actions.map transparencySignals).sum : ℕ) : ℝ)
          / ((actions.length * 3 : ℕ) : ℝ) ≤ 1 := by
        rw [div_le_one hden]
        exact_mod_cast sum_transparencySignals_le actions
      nlinarith [hq, hden.le]

theorem overall_score_of_bounds (s : Store) (aid : String) :
    0 ≤ overall_score_of s aid ∧ overall_score_of s aid ≤ 100 :=
  ⟨clamp_nonneg _, clamp_le_100 _⟩

/-- C1: for every agent and store state, each of the five dimension scores
(reliability, safety, consistency, efficiency, transparency) lies in
[0, 100], the aggregated overall score lies in [0, 100], and every field
of the snapshot stored by a recompute satisfies the same bounds. -/
theorem C1_all_scores_in_bounds (s : Store) (aid : String) (profile : Profile)
    (actions : List Action) (incidents : List Incident) :
    (0 ≤ compute_reliability actions ∧ compute_reliability actions ≤ 100) ∧
    (0 ≤ compute_safety actions incidents ∧ compute_safety actions incidents ≤ 100) ∧
    (0 ≤ compute_consistency actions ∧ compute_consistency actions ≤ 100) ∧
    (0 ≤ compute_efficiency s aid actions ∧ compute_efficiency s aid actions ≤ 100) ∧
    (0 ≤ compute_transparency actions ∧ compute_transparency actions ≤ 100) ∧
    (0 ≤ overall_score_of s aid ∧ overall_score_of s aid ≤ 100) ∧
    ((0 ≤ (recompute_reputation s aid profile).overall_score ∧
        (recompute_reputation s aid profile).overall_score ≤ 100) ∧
      (0 ≤ (recompute_reputation s aid profile).reliability ∧
        (recompute_reputation s aid profile).reliability ≤ 100) ∧
      (0 ≤ (recompute_reputation s aid profile).safety ∧
        (recompute_reputation s aid profile).safety ≤ 100) ∧
      (0 ≤ (recompute_reputation s aid profile).consistency ∧
        (recompute_reputation s aid profile).consistency ≤ 100) ∧
      (0 ≤ (recompute_reputation s aid profile).efficiency ∧
        (recompute_reputation s aid profile).efficiency ≤ 100) ∧
      (0 ≤ (recompute_reputation s aid profile).transparency ∧
        (recompute_reputation s aid profile).transparency ≤ 100)) := by
  refine ⟨compute_reliability_bounds _, compute_safety_bounds _ _,
    compute_consistency_bounds _, compute_efficiency_bounds _ _ _,
    compute_transparency_bounds _, overall_score_of_bounds _ _, ?_⟩
  unfold recompute_reputation
  dsimp only
  split_ifs with h
  · unfold default_reputation
    norm_num
  · dsimp only
    exact ⟨round2_bounds (overall_score_of_bounds s aid).1 (overall_score_of_bounds s aid).2,
      round2_bounds (compute_reliability_bounds _).1 (compute_reliability_bounds _).2,
      round2_bounds (compute_safety_bounds _ _).1 (compute_safety_bounds _ _).2,
      round2_bounds (compute_consistency_bounds _).1 (compute_consistency_bounds _).2,
      round2_bounds (compute_efficiency_bounds _ _ _).1 (compute_efficiency_bounds _ _ _).2,
      round2_bounds (compute_transparency_bounds _).1 (compute_transparency_bounds _).2⟩

/-- C6: the trust-tier mapping yields Platinum for scores ≥ 90, Gold on
[75, 90), Silver on [60, 75), Bronze on [40, 60), Unverified below 40;
in particular 90.0 ⇒ Platinum, 89.99 ⇒ Gold, 75.0 ⇒ Gold,
59.99 ⇒ Bronze, 39.99 ⇒ Unverified. -/
theorem C6_trust_tier_mapping (sc : ℝ) :
    (90 ≤ sc → score_to_tier sc = "Platinum") ∧
    (75 ≤ sc → sc < 90 → score_to_tier sc = "Gold") ∧
    (60 ≤ sc → sc < 75 → score_to_tier sc = "Silver") ∧
    (40 ≤ sc → sc < 60 → score_to_tier sc = "Bronze") ∧
    (sc < 40 → score_to_tier sc = "Unverified") ∧
    score_to_tier 90 = "Platinum" ∧ score_to_tier 89.99 = "Gold" ∧
    score_to_tier 75 = "Gold" ∧ score_to_tier 59.99 = "Bronze" ∧
    score_to_tier 39.99 = "Unverified" := by
  unfold score_to_tier
  refine ⟨?_, ?_, ?_, ?_, ?_, ?_, ?_, ?_, ?_, ?_⟩ <;>
    · intros
      split_ifs <;> first | rfl | (exfalso; linarith)

/-- Witness for C6, at score 92 (discharging the `90 ≤ s` hypothesis). -/
theorem C6_trust_tier_mapping_witness :
    (90 : ℝ) ≤ 92 ∧ score_to_tier 92 = "Platinum" :=
  ⟨by norm_num, (C6_trust_tier_mapping 92).1 (by norm_num)⟩

/-- Replacing the value under a present key is visible to lookup. -/
theorem lookupAssoc_set {α : Type} (l : List (String × α)) (aid : String) (p : α) :
    lookupAssoc (l.map (fun q => if q.1 = aid then (q.1, p) else q)) aid
      = (lookupAssoc l aid).map (fun _ => p) := by
  induction l with
  | nil => rfl
  | cons hd tl ih =>
      simp only [List.map_cons]
      by_cases hk : hd.1 = aid
      · rw [if_pos hk]
        simp [lookupAssoc, hk]
      · rw [if_neg hk]
        simp [lookupAssoc, hk, ih]

theorem lookupAgent_setAgent (s : Store) (aid : String) (p : Profile) :
    lookupAgent (setAgent s aid p) aid
      = (lookupAgent s aid).map (fun _ => p) := by
  unfold lookupAgent setAgent
  exact lookupAssoc_set s.agents aid p

/-- C3: for every agent with zero recorded actions — whatever incidents
exist against it — a recompute produces exactly the fixed default
snapshot (overall 50, reliability 50, safety 100, consistency 50,
efficiency 50, transparency 50, tier Unverified, trend stable), and that
default snapshot is what the store holds afterwards. -/
theorem C3_zero_actions_default_snapshot (s : Store) (aid : String)
    (profile : Profile) (h : actionsOf s aid = []) :
    recompute_reputation s aid profile = default_reputation ∧
    ∀ p', lookupAgent (recompute_store s aid) aid = some p' →
      p'.reputation = default_reputation := by
  have hrep : ∀ pr : Profile, recompute_reputation s aid pr = default_reputation := by
    intro pr
    unfold recompute_reputation
    rw [h]
    simp
  refine ⟨hrep profile, ?_⟩
  intro p' hp'
  unfold recompute_store at hp'
  cases hlk : lookupAgent s aid with
  | none =>
      rw [hlk] at hp'
      unfold lookupAgent at hlk
      unfold lookupAgent at hp'
      rw [hlk] at hp'
      cases hp'
  | some pr =>
      rw [hlk] at hp'
      rw [lookupAgent_setAgent, hlk] at hp'
      cases hp'
      exact hrep pr

/-- The profile of the agent used in the C3 witness: freshly registered,
one incident already counted, no actions. -/
def profC3 : Profile :=
  { name := "a"
    category := "general"
    reputation := default_reputation
    stats := { total_actions := 0, success_rate := 0, incidents := 1 } }

/-- The store of the C3 witness: one agent with a reported critical
incident and zero actions. -/
def storeC3 : Store :=
  { agents := [("a", profC3)]
    actions := []
    incidents := [("a", [{ severity := "critical" }])] }

/-- Witness for C3: a registered agent with one reported critical
incident and no actions. -/
theorem C3_zero_actions_default_snapshot_witness :
    actionsOf storeC3 "a" = [] ∧
      (recompute_reputation storeC3 "a" profC3 = default_reputation ∧
        ∀ p', lookupAgent (recompute_store storeC3 "a") "a" = some p' →
          p'.reputation = default_reputation) :=
  ⟨rfl, C3_zero_actions_default_snapshot storeC3 "a" profC3 rfl⟩

/-- C9: every operation addressed to an agent identifier absent from the
store — profile fetch, profile update, action recording, action listing,
reputation history, incident listing, incident reporting — returns the
not-found error and leaves the store exactly as it was. -/
theorem C9_unknown_agent_not_found (s : Store) (aid : String)
    (h : lookupAgent s aid = none) (data : UpdateData) (act : Action)
    (q : ActionQuery) (inc : Incident) :
    get_agent s aid = (Except.error StoreError.notFound, s) ∧
    update_agent s aid data = (Except.error StoreError.notFound, s) ∧
    record_action s aid act = (Except.error StoreError.notFound, s) ∧
    get_actions s aid q = (Except.error StoreError.notFound, s) ∧
    get_reputation_history s aid = (Except.error StoreError.notFound, s) ∧
    get_agent_incidents s aid = (Except.error StoreError.notFound, s) ∧
    report_incident s aid inc = (Except.error StoreError.notFound, s) := by
  refine ⟨?_, ?_, ?_, ?_, ?_, ?_, ?_⟩ <;>
    simp [get_agent, update_agent, record_action, get_actions,
      get_reputation_history, get_agent_incidents, report_incident, h]

/-- The empty store, used as the C9 witness state. -/
def emptyStore : Store := { agents := [], actions := [], incidents := [] }

/-- A plain successful action with no optional fields. -/
def plainAction : Action :=
  { status := "success", cost_usd := none, self_reported_confidence := none,
    input_hash := none, output_hash := none }

/-- The default action query (limit 50, offset 0, no status filter). -/
def defaultQuery : ActionQuery := { status := none, limit := 50, offset := 0 }

/-- A low-severity incident payload. -/
def lowIncident : Incident := { severity := "low" }

/-- An empty profile patch. -/
def emptyPatch : UpdateData := { name := none, category := none }

/-- Witness for C9: the agent id "ghost" in the empty store. -/
theorem C9_unknown_agent_not_found_witness :
    lookupAgent emptyStore "ghost" = none ∧
      (get_agent emptyStore "ghost" = (Except.error StoreError.notFound, emptyStore) ∧
      update_agent emptyStore "ghost" emptyPatch
        = (Except.error StoreError.notFound, emptyStore) ∧
      record_action emptyStore "ghost" plainAction
        = (Except.error StoreError.notFound, emptyStore) ∧
      get_actions emptyStore "ghost" defaultQuery
        = (Except.error StoreError.notFound, emptyStore) ∧
      get_reputation_history emptyStore "ghost"
        = (Except.error StoreError.notFound, emptyStore) ∧
      get_agent_incidents emptyStore "ghost"
        = (Except.error StoreError.notFound, emptyStore) ∧
      report_incident emptyStore "ghost" lowIncident
        = (Except.error StoreError.notFound, emptyStore)) :=
  ⟨rfl, C9_unknown_agent_not_found emptyStore "ghost" rfl emptyPatch
    plainAction defaultQuery lowIncident⟩

theorem severityWeight_ge_one (sev : String) : 1 ≤ severityWeight sev := by
  unfold severityWeight
  split_ifs <;> norm_num

theorem weightSum_nonneg (incidents : List Incident) :
    0 ≤ (incidents.map (fun inc => severityWeight inc.severity)).sum := by
  apply List.sum_nonneg
  intro x hx
  obtain ⟨i, _, rfl⟩ := List.mem_map.mp hx
  linarith [severityWeight_ge_one i.severity]

/-- C4 (amended): with the action set held fixed, adding one incident (of
any severity) strictly decreases the safety score whenever the current
safety score is positive; once the score is clamped at 0 it stays 0; and
adding incidents never increases the safety score — all for arbitrary
action/incident lists. -/
theorem C4_safety_monotone_amended (actions : List Action)
    (incidents : List Incident) (inc : Incident) (extra : List Incident) :
    (0 < compute_safety actions incidents →
      compute_safety actions (incidents ++ [inc])
        < compute_safety actions incidents) ∧
    (compute_safety actions incidents = 0 →
      compute_safety actions (incidents ++ [inc]) = 0) ∧
    compute_safety actions (incidents ++ extra)
      ≤ compute_safety actions incidents := by
  simp only [compute_safety_def]
  set D := ((max actions.length 1 : ℕ) : ℝ) with hD
  have hD1 : (1 : ℝ) ≤ D := by
    rw [hD]
    exact_mod_cast le_max_right actions.length 1
  have hD0 : (0 : ℝ) < D := lt_of_lt_of_le zero_lt_one hD1
  set W := (incidents.map (fun i => severityWeight i.severity)).sum with hW
  have hW0 : 0 ≤ W := weightSum_nonneg incidents
  have hsum1 : ((incidents ++ [inc]).map (fun i => severityWeight i.severity)).sum
      = W + severityWeight inc.severity := by
    rw [List.map_append, List.sum_append]
    simp
  have hsum2 : ((incidents ++ extra).map (fun i => severityWeight i.severity)).sum
      = W + (extra.map (fun i => severityWeight i.severity)).sum := by
    rw [List.map_append, List.sum_append]
  have hraw_le : 100 - W / D * 10 ≤ 100 := by
    have : 0 ≤ W / D * 10 := by positivity
    linarith
  have hmin : min (100 : ℝ) (100 - W / D * 10) = 100 - W / D * 10 :=
    min_eq_right hraw_le
  have hw1 : 1 ≤ severityWeight inc.severity := severityWeight_ge_one inc.severity
  have hwD : 0 < severityWeight inc.severity / D := div_pos (by linarith) hD0
  have hlt : 100 - (W + severityWeight inc.severity) / D * 10
      < 100 - W / D * 10 := by
    rw [add_div]
    nlinarith
  have hle2 : 100 - (W + severityWeight inc.severity) / D * 10 ≤ 100 := by
    have hq : 0 ≤ (W + severityWeight inc.severity) / D * 10 := by positivity
    linarith
  refine ⟨?_, ?_, ?_⟩
  · intro h
    rw [hmin] at h
    have hraw_pos : 0 < 100 - W / D * 10 := by
      by_contra hle
      push_neg at hle
      rw [max_eq_left hle] at h
      exact lt_irrefl 0 h
    rw [hsum1, min_eq_right hle2, hmin, max_eq_right hraw_pos.le]
    exact max_lt hraw_pos hlt
  · intro h0
    rw [hmin] at h0
    have hraw0 : 100 - W / D * 10 ≤ 0 := by
      by_contra hpos
      push_neg at hpos
      rw [max_eq_right hpos.le] at h0
      linarith
    rw [hsum1, min_eq_right hle2]
    apply max_eq_left
    linarith
  · have hex : 0 ≤ (extra.map (fun i => severityWeight i.severity)).sum :=
      weightSum_nonneg extra
    have hle3 : 100
        - (W + (extra.map (fun i => severityWeight i.severity)).sum) / D * 10
        ≤ 100 - W / D * 10 := by
      have hq : 0 ≤ (extra.map (fun i => severityWeight i.severity)).sum / D :=
        div_nonneg hex hD0.le
      rw [add_div]
      nlinarith
    rw [hsum2]
    exact max_le_max le_rfl (min_le_min le_rfl hle3)

/-- A critical-severity incident payload. -/
def critIncident : Incident := { severity := "critical" }

/-- One action, used by the C4 counterexample. -/
def actsC4 : List Action := [plainAction]

/-- Ten critical incidents against a single action: enough weighted
severity to pin the safety score at the 0 clamp. -/
def incsC4 : List Incident := List.replicate 10 critIncident

/-- Counterexample to C4 as stated: with one action and ten critical
incidents the safety score is already clamped at 0, and reporting one
more (low) incident leaves it at 0 instead of strictly decreasing it. -/
theorem C4_safety_strict_decrease_counterexample :
    compute_safety actsC4 incsC4 = 0 ∧
      compute_safety actsC4 (incsC4 ++ [lowIncident]) = 0 ∧
      ¬ compute_safety actsC4 (incsC4 ++ [lowIncident])
          < compute_safety actsC4 incsC4 := by
  have h1 : compute_safety actsC4 incsC4 = 0 := by
    rw [compute_safety_def]
    simp [actsC4, incsC4, critIncident, severityWeight,
      List.map_replicate, List.sum_replicate]
    norm_num
  have h2 : compute_safety actsC4 (incsC4 ++ [lowIncident]) = 0 := by
    rw [compute_safety_def]
    simp [actsC4, incsC4, critIncident, lowIncident, severityWeight,
      List.map_replicate, List.sum_replicate]
    norm_num
  exact ⟨h1, h2, by rw [h1, h2]; exact lt_irrefl 0⟩

/-- Ten plain successful actions, used by the C4 witness. -/
def actsC4w : List Action := List.replicate 10 plainAction

/-- One low incident, used by the C4 witness. -/
def incsC4w : List Incident := [lowIncident]

/-- Witness for the amended C4: ten actions with one low incident give
safety 99 > 0, so a medium incident strictly decreases the score; one
action with ten critical incidents gives safety 0, which a further low
incident leaves at 0; and the never-increases conjunct is instantiated
unconditionally at both inputs. -/
theorem C4_safety_monotone_amended_witness :
    (0 < compute_safety actsC4w incsC4w ∧
      compute_safety actsC4w (incsC4w ++ [{ severity := "medium" }])
        < compute_safety actsC4w incsC4w) ∧
    (compute_safety actsC4 incsC4 = 0 ∧
      compute_safety actsC4 (incsC4 ++ [lowIncident]) = 0) ∧
    compute_safety actsC4w (incsC4w ++ [{ severity := "high" }])
      ≤ compute_safety actsC4w incsC4w :=
  ⟨⟨by
      rw [compute_safety_def]
      simp [actsC4w, incsC4w, lowIncident, severityWeight],
    (C4_safety_monotone_amended actsC4w incsC4w { severity := "medium" }
        [{ severity := "high" }]).1
      (by
        rw [compute_safety_def]
        simp [actsC4w, incsC4w, lowIncident, severityWeight])⟩,
   ⟨by
      rw [compute_safety_def]
      simp [actsC4, incsC4, critIncident, severityWeight,
        List.map_replicate, List.sum_replicate]
      norm_num,
    (C4_safety_monotone_amended actsC4 incsC4 lowIncident []).2.1
      (by
        rw [compute_safety_def]
        simp [actsC4, incsC4, critIncident, severityWeight,
          List.map_replicate, List.sum_replicate]
        norm_num)⟩,
   (C4_safety_monotone_amended actsC4w incsC4w { severity := "medium" }
      [{ severity := "high" }]).2.2⟩

theorem isSuccessStatus_eq_decide (a : Action) :
    isSuccessStatus a.status = decide (a.status = "success" ∨ a.status = "partial") := by
  unfold isSuccessStatus
  by_cases h1 : a.status = "success" <;> by_cases h2 : a.status = "partial" <;>
    simp [h1, h2]

/-- C5: for every non-empty action list, reliability equals
50×(1−c) + raw_rate×c with raw_rate = successes/total × 100
(successes counting status success or partial) and
c = min(1, sqrt(total)/10); and the result is invariant under
permutations of the action list. -/
theorem C5_reliability_formula (actions : List Action) (h : actions ≠ []) :
    (compute_reliability actions
      = 50 * (1 - min 1 (Real.sqrt (actions.length : ℝ) / 10))
        + ((((actions.filter
              (fun a => a.status = "success" ∨ a.status = "partial")).length : ℝ)
            / (actions.length : ℝ)) * 100)
          * min 1 (Real.sqrt (actions.length : ℝ) / 10)) ∧
    ∀ actions' : List Action, actions.Perm actions' →
      compute_reliability actions = compute_reliability actions' := by
  constructor
  · rw [compute_reliability_def]
    rw [if_neg (by simpa using List.length_pos.mpr h |>.ne')]
    have hfil : actions.filter (fun a => isSuccessStatus a.status)
        = actions.filter (fun a => a.status = "success" ∨ a.status = "partial") := by
      apply List.filter_congr
      intro a _
      rw [isSuccessStatus_eq_decide]
    rw [hfil]
  · intro actions' hperm
    rw [compute_reliability_def, compute_reliability_def,
      hperm.length_eq, (hperm.filter _).length_eq]

/-- Failed variant of the plain action. -/
def failedAction : Action :=
  { status := "failed", cost_usd := none, self_reported_confidence := none,
    input_hash := none, output_hash := none }

/-- Three successes and one failure, used by the C5 witness. -/
def actsC5 : List Action := [plainAction, plainAction, plainAction, failedAction]

/-- Witness for C5, at a list of three successes and one failure. -/
theorem C5_reliability_formula_witness :
    actsC5 ≠ [] ∧
      ((compute_reliability actsC5
        = 50 * (1 - min 1 (Real.sqrt (actsC5.length : ℝ) / 10))
          + ((((actsC5.filter
                (fun a => a.status = "success" ∨ a.status = "partial")).length : ℝ)
              / (actsC5.length : ℝ)) * 100)
            * min 1 (Real.sqrt (actsC5.length : ℝ) / 10)) ∧
      ∀ actions' : List Action, actsC5.Perm actions' →
        compute_reliability actsC5 = compute_reliability actions') :=
  ⟨by simp [actsC5], C5_reliability_formula actsC5 (by simp [actsC5])⟩

theorem trendOf_iff (overall prev : ℝ) :
    (trendOf overall prev = "improving" ↔ overall > prev + 2) ∧
    (trendOf overall prev = "declining" ↔ overall < prev - 2) ∧
    (trendOf overall prev = "stable"
        ↔ (¬ overall > prev + 2 ∧ ¬ overall < prev - 2)) := by
  unfold trendOf
  by_cases h1 : overall > prev + 2
  · rw [if_pos h1]
    refine ⟨by simp [h1], ?_, ?_⟩
    · constructor
      · intro hs
        exact absurd hs (by decide)
      · intro hlt
        exact absurd hlt (by linarith)
    · simp [h1]
  · rw [if_neg h1]
    by_cases h2 : overall < prev - 2
    · rw [if_pos h2]
      refine ⟨?_, by simp [h2], ?_⟩
      · constructor
        · intro hs
          exact absurd hs (by decide)
        · intro hgt
          exact absurd hgt (by linarith)
      · simp [h1, h2]
    · rw [if_neg h2]
      refine ⟨?_, ?_, ?_⟩ <;> simp [h1, h2]

/-- C7: on every recompute with at least one action, the stored trend is
"improving" exactly when the new (clamped, unrounded) overall exceeds the
previously stored overall by more than 2, "declining" exactly when it is
more than 2 below it, "stable" otherwise; and a recompute landing at
prior+3 / prior−3 / prior+1 is labelled improving / declining / stable. -/
theorem C7_trend_labelling (s : Store) (aid : String) (profile : Profile)
    (h : actionsOf s aid ≠ []) :
    (((recompute_reputation s aid profile).trend = "improving"
        ↔ overall_score_of s aid > profile.reputation.overall_score + 2) ∧
      ((recompute_reputation s aid profile).trend = "declining"
        ↔ overall_score_of s aid < profile.reputation.overall_score - 2) ∧
      ((recompute_reputation s aid profile).trend = "stable"
        ↔ (¬ overall_score_of s aid > profile.reputation.overall_score + 2 ∧
           ¬ overall_score_of s aid < profile.reputation.overall_score - 2))) ∧
    ∀ prev : ℝ, trendOf (prev + 3) prev = "improving" ∧
      trendOf (prev - 3) prev = "declining" ∧
      trendOf (prev + 1) prev = "stable" := by
  constructor
  · have htrend : (recompute_reputation s aid profile).trend
        = trendOf (overall_score_of s aid) profile.reputation.overall_score := by
      unfold recompute_reputation
      dsimp only
      rw [if_neg h]
    rw [htrend]
    exact trendOf_iff _ _
  · intro prev
    refine ⟨?_, ?_, ?_⟩ <;>
      · unfold trendOf
        split_ifs <;> first | rfl | (exfalso; linarith)

/-- One action carrying a recorded cost and confidence (used to build
stores whose agents have actions). -/
def richAction : Action :=
  { status := "success", cost_usd := some 1, self_reported_confidence := some 1,
    input_hash := some "i", output_hash := some "o" }

/-- Store for the C7 witness: one agent with a single action. -/
def storeC7 : Store :=
  { agents := [("a", profC3)]
    actions := [("a", [richAction])]
    incidents := [] }

/-- Witness for C7, at a one-agent store with one action. -/
theorem C7_trend_labelling_witness :
    actionsOf storeC7 "a" ≠ [] ∧
      ((((recompute_reputation storeC7 "a" profC3).trend = "improving"
          ↔ overall_score_of storeC7 "a" > profC3.reputation.overall_score + 2) ∧
        ((recompute_reputation storeC7 "a" profC3).trend = "declining"
          ↔ overall_score_of storeC7 "a" < profC3.reputation.overall_score - 2) ∧
        ((recompute_reputation storeC7 "a" profC3).trend = "stable"
          ↔ (¬ overall_score_of storeC7 "a" > profC3.reputation.overall_score + 2 ∧
             ¬ overall_score_of storeC7 "a" < profC3.reputation.overall_score - 2))) ∧
      ∀ prev : ℝ, trendOf (prev + 3) prev = "improving" ∧
        trendOf (prev - 3) prev = "declining" ∧
        trendOf (prev + 1) prev = "stable") :=
  ⟨by simp [storeC7, actionsOf, lookupAssoc],
    C7_trend_labelling storeC7 "a" profC3
      (by simp [storeC7, actionsOf, lookupAssoc])⟩

/-- C8: the consistency score is 50 when fewer than two self-reported
confidence values exist, otherwise max(0, 100 − σ×200) with σ the sample
standard deviation (n−1 denominator) of the confidences present; and it
always lies within [0, 100]. -/
theorem C8_consistency_score (actions : List Action) :
    ((confidencesOf actions).length < 2 → compute_consistency actions = 50) ∧
    (2 ≤ (confidencesOf actions).length →
      compute_consistency actions
        = max 0 (100 - stdev (confidencesOf actions) * 200)) ∧
    (0 ≤ compute_consistency actions ∧ compute_consistency actions ≤ 100) := by
  refine ⟨?_, ?_, compute_consistency_bounds actions⟩
  · intro h
    rw [compute_consistency_def, if_pos h]
  · intro h
    rw [compute_consistency_def, if_neg (by omega)]
    have hsd : 0 ≤ stdev (confidencesOf actions) := Real.sqrt_nonneg _
    have hle : max 0 (100 - stdev (confidencesOf actions) * 200) ≤ 100 :=
      max_le (by norm_num) (by nlinarith)
    rw [min_eq_right hle, max_eq_right (le_max_left _ _)]

/-- Two actions with distinct confidences, used by the C8 witness. -/
def actsC8 : List Action :=
  [{ status := "success", cost_usd := none, self_reported_confidence := some 0.5,
     input_hash := none, output_hash := none },
   { status := "success", cost_usd := none, self_reported_confidence := some 0.5,
     input_hash := none, output_hash := none },
   plainAction]

/-- Witness for C8: the empty list discharges the fewer-than-two branch,
a list with two recorded confidences discharges the other. -/
theorem C8_consistency_score_witness :
    ((confidencesOf []).length < 2 ∧ compute_consistency [] = 50) ∧
      (2 ≤ (confidencesOf actsC8).length ∧
        compute_consistency actsC8
          = max 0 (100 - stdev (confidencesOf actsC8) * 200)) :=
  ⟨⟨by simp [confidencesOf], (C8_consistency_score []).1 (by simp [confidencesOf])⟩,
   ⟨by simp [actsC8, confidencesOf, plainAction],
    (C8_consistency_score actsC8).2.1
      (by simp [actsC8, confidencesOf, plainAction])⟩⟩

theorem filterMap_ite_mean {α : Type} (g : α → List ℝ) (l : List α) :
    l.filterMap (fun a => if g a = [] then none else some (mean (g a)))
      = (l.filter (fun a => g a ≠ [])).map (fun a => mean (g a)) := by
  induction l with
  | nil => rfl
  | cons hd tl ih =>
      by_cases h : g hd = []
      · simp [h, ih]
      · simp [h, ih]

/-- C2 (amended): the source's efficiency scorer equals the spec-style
description with the peer set enlarged to every agent of the category,
the scored agent itself included: an agent contributes its mean cost iff
it has at least one successful/partial costed action, the baseline is the
mean of those means, the score is 50 + 50×(1 − agent_avg/category_avg)
clamped to [0, 100], and 50 when the agent has no costed actions, no
agent contributes, or the baseline is zero. -/
theorem C2_efficiency_peer_set_amended (s : Store) (aid : String)
    (actions : List Action) :
    compute_efficiency s aid actions
      = efficiency_peers_including_self s aid actions := by
  unfold compute_efficiency efficiency_peers_including_self
  dsimp only
  simp only [filterMap_ite_mean (fun p : String × Profile => costsOf (actionsOf s p.1))]

/-- Zeroed aggregate stats of a fresh profile. -/
def stats0 : Stats := { total_actions := 0, success_rate := 0, incidents := 0 }

/-- A fresh profile in category "general". -/
def mkProf (n : String) : Profile :=
  { name := n, category := "general", reputation := default_reputation,
    stats := stats0 }

/-- A successful action costing 1. -/
def actCost1 : Action :=
  { status := "success", cost_usd := some 1, self_reported_confidence := none,
    input_hash := none, output_hash := none }

/-- A successful action costing 3. -/
def actCost3 : Action :=
  { status := "success", cost_usd := some 3, self_reported_confidence := none,
    input_hash := none, output_hash := none }

/-- Two agents of one category: "A" with mean cost 1, "B" with mean
cost 3. -/
def storeC2 : Store :=
  { agents := [("A", mkProf "A"), ("B", mkProf "B")]
    actions := [("A", [actCost1]), ("B", [actCost3])]
    incidents := [] }

/-- Counterexample to C2 as stated: with agents "A" (mean cost 1) and
"B" (mean cost 3) in one category, the source computes efficiency 75 for
"A" (baseline mean(1, 3) = 2, the scored agent included in the scan),
while the claimed peers-are-other-agents rule gives 250/3 ≈ 83.33
(baseline 3). -/
theorem C2_efficiency_peer_set_counterexample :
    compute_efficiency storeC2 "A" [actCost1] = 75 ∧
      efficiency_peers_excluding_self storeC2 "A" [actCost1] = 250 / 3 ∧
      compute_efficiency storeC2 "A" [actCost1]
        ≠ efficiency_peers_excluding_self storeC2 "A" [actCost1] := by
  have hcA : costsOf [actCost1] = [(1 : ℝ)] := by
    simp [costsOf, actCost1, isSuccessStatus]
  have hcB : costsOf [actCost3] = [(3 : ℝ)] := by
    simp [costsOf, actCost3, isSuccessStatus]
  have haA : actionsOf storeC2 "A" = [actCost1] := rfl
  have haB : actionsOf storeC2 "B" = [actCost3] := rfl
  have h1 : compute_efficiency storeC2 "A" [actCost1] = 75 := by
    have hfm : List.filterMap
        (fun p => if costsOf (actionsOf storeC2 p.1) = [] then none
          else some (mean (costsOf (actionsOf storeC2 p.1))))
        [("A", mkProf "A"), ("B", mkProf "B")]
        = [mean [(1 : ℝ)], mean [(3 : ℝ)]] := by
      rw [List.filterMap_cons, List.filterMap_cons, List.filterMap_nil]
      dsimp only
      rw [haA, hcA, haB, hcB]
      rw [if_neg (show ¬([(1 : ℝ)] = []) from by simp)]
      rw [if_neg (show ¬([(3 : ℝ)] = []) from by simp)]
    unfold compute_efficiency
    dsimp only
    rw [show (Option.map Profile.category (lookupAgent storeC2 "A")).getD ""
        = "general" from rfl]
    rw [hcA]
    rw [if_neg (show ¬([(1 : ℝ)] = []) from by simp)]
    rw [show storeC2.agents = [("A", mkProf "A"), ("B", mkProf "B")] from rfl]
    rw [show List.filter (fun p => decide (p.2.category = "general"))
        [("A", mkProf "A"), ("B", mkProf "B")]
        = [("A", mkProf "A"), ("B", mkProf "B")] from rfl]
    rw [hfm]
    rw [show mean [mean [(1 : ℝ)], mean [(3 : ℝ)]] = 2 from by norm_num [mean]]
    rw [if_neg (show ¬([mean [(1 : ℝ)], mean [(3 : ℝ)]] = [] ∨ (2 : ℝ) = 0) from by
      rw [not_or]
      exact ⟨by simp, by norm_num⟩)]
    norm_num [mean]
  have h2 : efficiency_peers_excluding_self storeC2 "A" [actCost1] = 250 / 3 := by
    unfold efficiency_peers_excluding_self
    dsimp only
    rw [show (Option.map Profile.category (lookupAgent storeC2 "A")).getD ""
        = "general" from rfl]
    rw [hcA]
    rw [if_neg (show ¬([(1 : ℝ)] = []) from by simp)]
    rw [show storeC2.agents = [("A", mkProf "A"), ("B", mkProf "B")] from rfl]
    rw [show List.filter (fun p => decide (¬p.1 = "A" ∧ p.2.category = "general"))
        [("A", mkProf "A"), ("B", mkProf "B")]
        = [("B", mkProf "B")] from rfl]
    rw [show List.filter (fun p => decide (¬costsOf (actionsOf storeC2 p.1) = []))
        [("B", mkProf "B")] = [("B", mkProf "B")] from by
      simp only [List.filter_cons, List.filter_nil]
      dsimp only
      rw [haB, hcB]
      simp]
    rw [show List.map (fun p => mean (costsOf (actionsOf storeC2 p.1)))
        [("B", mkProf "B")] = [mean [(3 : ℝ)]] from by
      simp only [List.map_cons, List.map_nil]
      rw [haB, hcB]]
    rw [show mean [mean [(3 : ℝ)]] = 3 from by norm_num [mean]]
    rw [if_neg (show ¬([mean [(3 : ℝ)]] = [] ∨ (3 : ℝ) = 0) from by
      rw [not_or]
      exact ⟨by simp, by norm_num⟩)]
    norm_num [mean]
  refine ⟨h1, h2, ?_⟩
  rw [h1, h2]
  norm_num

theorem filter_replicate_of_pos {α : Type} (n : ℕ) (x : α) (p : α → Bool)
    (h : p x = true) : (List.replicate n x).filter p = List.replicate n x := by
  induction n with
  | zero => rfl
  | succ k ih => simp [List.replicate_succ, List.filter_cons, h, ih]

theorem filterMap_replicate_some {α β : Type} (n : ℕ) (x : α) (f : α → Option β)
    (b : β) (h : f x = some b) :
    (List.replicate n x).filterMap f = List.replicate n b := by
  induction n with
  | zero => rfl
  | succ k ih => simp [List.replicate_succ, List.filterMap_cons, h, ih]

theorem mean_replicate {n : ℕ} (hn : n ≠ 0) (x : ℝ) :
    mean (List.replicate n x) = x := by
  unfold mean
  rw [List.sum_replicate, List.length_replicate, nsmul_eq_mul]
  exact mul_div_cancel_left₀ x (Nat.cast_ne_zero.mpr hn)

/-- The action logged 100 times by the C10 agent: successful, costed,
with confidence and both hashes. -/
def actA10 : Action :=
  { status := "success", cost_usd := some 1667,
    self_reported_confidence := some 0.9,
    input_hash := some "i", output_hash := some "o" }

/-- One cheaper successful costed action for the C10 peer. -/
def actB10 : Action :=
  { status := "success", cost_usd := some 833, self_reported_confidence := none,
    input_hash := none, output_hash := none }

/-- The 100 identical actions of the C10 agent. -/
def actsA10 : List Action := List.replicate 100 actA10

/-- The C10 store: agent "A" with 100 perfect actions at cost 1667 and a
category peer "B" with one action at cost 833, no incidents. -/
def storeC10 : Store :=
  { agents := [("A", mkProf "A"), ("B", mkProf "B")]
    actions := [("A", actsA10), ("B", [actB10])]
    incidents := [] }

theorem evalC10_costsA : costsOf actsA10 = List.replicate 100 (1667 : ℝ) := by
  unfold costsOf actsA10
  rw [filter_replicate_of_pos 100 actA10 _ (by rfl)]
  exact filterMap_replicate_some 100 actA10 _ (1667 : ℝ) rfl

theorem evalC10_reliability : compute_reliability actsA10 = 100 := by
  rw [compute_reliability_def]
  rw [show actsA10.length = 100 from rfl]
  rw [if_neg (by norm_num)]
  rw [show actsA10.filter (fun a => isSuccessStatus a.status) = actsA10 from
    filter_replicate_of_pos 100 actA10 _ (by rfl)]
  rw [show actsA10.length = 100 from rfl]
  rw [show Real.sqrt ((100 : ℕ) : ℝ) = 10 from by
    rw [show (((100 : ℕ) : ℝ)) = 10 ^ 2 by norm_num]
    exact Real.sqrt_sq (by norm_num)]
  norm_num

theorem evalC10_safety : compute_safety actsA10 [] = 100 := by
  rw [compute_safety_def]
  norm_num

theorem evalC10_consistency : compute_consistency actsA10 = 100 := by
  have hconf : confidencesOf actsA10 = List.replicate 100 (0.9 : ℝ) := by
    unfold confidencesOf actsA10
    exact filterMap_replicate_some 100 actA10 _ (0.9 : ℝ) rfl
  have hmean : mean (List.replicate 100 (0.9 : ℝ)) = 0.9 :=
    mean_replicate (by norm_num) _
  have hvar : sampleVariance (List.replicate 100 (0.9 : ℝ)) = 0 := by
    unfold sampleVariance
    rw [hmean, List.map_replicate, List.sum_replicate, List.length_replicate]
    norm_num
  have hsd : stdev (List.replicate 100 (0.9 : ℝ)) = 0 := by
    unfold stdev
    rw [hvar, Real.sqrt_zero]
  rw [compute_consistency_def, hconf]
  rw [if_neg (by simp)]
  rw [hsd]
  norm_num

theorem evalC10_transparency : compute_transparency actsA10 = 100 := by
  rw [compute_transparency_def]
  rw [show actsA10.length = 100 from rfl]
  rw [if_neg (by norm_num)]
  rw [show actsA10.map transparencySignals = List.replicate 100 3 from by
    unfold actsA10
    rw [List.map_replicate]
    rfl]
  rw [List.sum_replicate]
  norm_num

theorem evalC10_efficiency : compute_efficiency storeC10 "A" actsA10 = 833 / 25 := by
  have haA : actionsOf storeC10 "A" = actsA10 := rfl
  have haB : actionsOf storeC10 "B" = [actB10] := rfl
  have hcB : costsOf [actB10] = [(833 : ℝ)] := by
    simp [costsOf, actB10, isSuccessStatus]
  have hmA : mean (List.replicate 100 (1667 : ℝ)) = 1667 :=
    mean_replicate (by norm_num) _
  have hmB : mean [(833 : ℝ)] = 833 := by norm_num [mean]
  have hfm : List.filterMap
      (fun p => if costsOf (actionsOf storeC10 p.1) = [] then none
        else some (mean (costsOf (actionsOf storeC10 p.1))))
      [("A", mkProf "A"), ("B", mkProf "B")]
      = [(1667 : ℝ), (833 : ℝ)] := by
    rw [List.filterMap_cons, List.filterMap_cons, List.filterMap_nil]
    dsimp only
    rw [haA, evalC10_costsA, haB, hcB]
    rw [if_neg (show ¬(List.replicate 100 (1667 : ℝ) = []) from by simp)]
    rw [if_neg (show ¬([(833 : ℝ)] = []) from by simp)]
    rw [hmA, hmB]
  unfold compute_efficiency
  dsimp only
  rw [show (Option.map Profile.category (lookupAgent storeC10 "A")).getD ""
      = "general" from rfl]
  rw [evalC10_costsA]
  rw [if_neg (show ¬(List.replicate 100 (1667 : ℝ) = []) from by simp)]
  rw [show storeC10.agents = [("A", mkProf "A"), ("B", mkProf "B")] from rfl]
  rw [show List.filter (fun p => decide (p.2.category = "general"))
      [("A", mkProf "A"), ("B", mkProf "B")]
      = [("A", mkProf "A"), ("B", mkProf "B")] from rfl]
  rw [hfm]
  rw [show mean [(1667 : ℝ), (833 : ℝ)] = 1250 from by norm_num [mean]]
  rw [if_neg (show ¬([(1667 : ℝ), (833 : ℝ)] = [] ∨ (1250 : ℝ) = 0) from by
    rw [not_or]
    exact ⟨by simp, by norm_num⟩)]
  rw [hmA]
  norm_num

theorem evalC10_overall : overall_score_of storeC10 "A" = 44999 / 500 := by
  unfold overall_score_of
  dsimp only
  rw [show actionsOf storeC10 "A" = actsA10 from rfl,
    show incidentsOf storeC10 "A" = [] from rfl]
  rw [evalC10_reliability, evalC10_safety, evalC10_consistency,
    evalC10_efficiency, evalC10_transparency]
  unfold weightedOverall
  norm_num

theorem round2_44999_500 : round2 (44999 / 500 : ℝ) = 90 := by
  unfold round2
  rw [round_eq]
  norm_num

theorem tier_44999_500 : score_to_tier (44999 / 500 : ℝ) = "Gold" := by
  unfold score_to_tier
  rw [if_neg (by norm_num), if_pos (by norm_num)]

/-- C10: on every recompute with at least one action, the stored overall
and breakdown values are the computed scores rounded to two decimals
while the trust tier and the trend are computed from the unrounded
(clamped) overall; consequently there is an input — 100 perfect actions
at cost 1667 beside a peer with one action at cost 833 — whose stored
snapshot shows overall_score 90.0 together with trust_tier "Gold",
because the unrounded overall 89.998 rounds up to 90 but sits below the
Platinum threshold. -/
theorem C10_rounding_vs_tier :
    (∀ (s : Store) (aid : String) (profile : Profile), actionsOf s aid ≠ [] →
      ((recompute_reputation s aid profile).overall_score
          = round2 (overall_score_of s aid) ∧
        (recompute_reputation s aid profile).reliability
          = round2 (compute_reliability (actionsOf s aid)) ∧
        (recompute_reputation s aid profile).safety
          = round2 (compute_safety (actionsOf s aid) (incidentsOf s aid)) ∧
        (recompute_reputation s aid profile).consistency
          = round2 (compute_consistency (actionsOf s aid)) ∧
        (recompute_reputation s aid profile).efficiency
          = round2 (compute_efficiency s aid (actionsOf s aid)) ∧
        (recompute_reputation s aid profile).transparency
          = round2 (compute_transparency (actionsOf s aid)) ∧
        (recompute_reputation s aid profile).trust_tier
          = score_to_tier (overall_score_of s aid) ∧
        (recompute_reputation s aid profile).trend
          = trendOf (overall_score_of s aid) profile.reputation.overall_score)) ∧
    ((recompute_reputation storeC10 "A" (mkProf "A")).overall_score = 90 ∧
      overall_score_of storeC10 "A" < 90 ∧
      (recompute_reputation storeC10 "A" (mkProf "A")).trust_tier = "Gold") := by
  have hgen : ∀ (s : Store) (aid : String) (profile : Profile),
      actionsOf s aid ≠ [] →
      ((recompute_reputation s aid profile).overall_score
          = round2 (overall_score_of s aid) ∧
        (recompute_reputation s aid profile).reliability
          = round2 (compute_reliability (actionsOf s aid)) ∧
        (recompute_reputation s aid profile).safety
          = round2 (compute_safety (actionsOf s aid) (incidentsOf s aid)) ∧
        (recompute_reputation s aid profile).consistency
          = round2 (compute_consistency (actionsOf s aid)) ∧
        (recompute_reputation s aid profile).efficiency
          = round2 (compute_efficiency s aid (actionsOf s aid)) ∧
        (recompute_reputation s aid profile).transparency
          = round2 (compute_transparency (actionsOf s aid)) ∧
        (recompute_reputation s aid profile).trust_tier
          = score_to_tier (overall_score_of s aid) ∧
        (recompute_reputation s aid profile).trend
          = trendOf (overall_score_of s aid) profile.reputation.overall_score) := by
    intro s aid profile h
    unfold recompute_reputation
    dsimp only
    rw [if_neg h]
    exact ⟨rfl, rfl, rfl, rfl, rfl, rfl, rfl, rfl⟩
  have hne : actionsOf storeC10 "A" ≠ [] := by
    rw [show actionsOf storeC10 "A" = actsA10 from rfl]
    unfold actsA10
    simp
  refine ⟨hgen, ?_, ?_, ?_⟩
  · rw [(hgen storeC10 "A" (mkProf "A") hne).1, evalC10_overall, round2_44999_500]
  · rw [evalC10_overall]
    norm_num
  · rw [(hgen storeC10 "A" (mkProf "A") hne).2.2.2.2.2.2.1, evalC10_overall,
      tier_44999_500]

/-- Witness for C10, instantiating the universally quantified part at the
C10 store. -/
theorem C10_rounding_vs_tier_witness :
    actionsOf storeC10 "A" ≠ [] ∧
      ((recompute_reputation storeC10 "A" (mkProf "A")).overall_score
          = round2 (overall_score_of storeC10 "A") ∧
        (recompute_reputation storeC10 "A" (mkProf "A")).reliability
          = round2 (compute_reliability (actionsOf storeC10 "A")) ∧
        (recompute_reputation storeC10 "A" (mkProf "A")).safety
          = round2 (compute_safety (actionsOf storeC10 "A") (incidentsOf storeC10 "A")) ∧
        (recompute_reputation storeC10 "A" (mkProf "A")).consistency
          = round2 (compute_consistency (actionsOf storeC10 "A")) ∧
        (recompute_reputation storeC10 "A" (mkProf "A")).efficiency
          = round2 (compute_efficiency storeC10 "A" (actionsOf storeC10 "A")) ∧
        (recompute_reputation storeC10 "A" (mkProf "A")).transparency
          = round2 (compute_transparency (actionsOf storeC10 "A")) ∧
        (recompute_reputation storeC10 "A" (mkProf "A")).trust_tier
          = score_to_tier (overall_score_of storeC10 "A") ∧
        (recompute_reputation storeC10 "A" (mkProf "A")).trend
          = trendOf (overall_score_of storeC10 "A")
              (mkProf "A").reputation.overall_score) :=
  ⟨by
    rw [show actionsOf storeC10 "A" = actsA10 from rfl]
    unfold actsA10
    simp,
   C10_rounding_vs_tier.1 storeC10 "A" (mkProf "A")
    (by
      rw [show actionsOf storeC10 "A" = actsA10 from rfl]
      unfold actsA10
      simp)⟩

end Protol
